import Mathlib

/-!
Verification of the SuperStore dashboard pipeline (`app.py`).

The core of the program is a pure data pipeline over an in-memory table of
sales records: cascading categorical filters and a date-range filter
(app.py lines 27-61), four scalar KPIs over the filtered subset
(lines 64-70), per-dimension group-by aggregation with a Margin-Rate
zero-guard (lines 129-142), and a descending sort plus top-10 truncation
driven by the selected KPI (lines 135-136, 141-142).

Modelling conventions for the shallow embedding:
* A pandas DataFrame of records is a `List Row`; filtering with a boolean
  mask is `List.filter`.
* `Order Date` values are modelled as `Int` (pandas Timestamps form a
  linear order; only order matters to the program).
* `Sales` and `Profit` are decimal currency and `Quantity` an integer;
  they are modelled as exact `ℚ` and `Int`.
* `df.groupby(k).agg(sum).reset_index()` emits one output row per distinct
  key, with keys in ascending sorted order (pandas `groupby` defaults to
  `sort=True`); it is modelled as deduplicated keys sorted by a stable
  insertion sort, each mapped to its group's sums.
* `df.sort_values(by=col, ascending=False)` is called with the default
  `kind='quicksort'`, which pandas documents as unstable (only
  `mergesort`/`stable` are stable), and the city/product tables can far
  exceed numpy's small-array insertion-sort cutoff.  The program is
  therefore only guaranteed a descending-sorted permutation of its
  table, with the relative order of tied rows unspecified;
  `SortValuesDescGuarantee` captures exactly this documented contract.
  `sortValuesDesc` is one deterministic refinement of that contract used
  to state the theorems about row contents, lengths and permutations —
  none of those depend on which refinement the running program realizes,
  and no theorem below ascribes the refinement's tie order to the
  program.
* `Series.replace(0, 1)` replaces the values that are exactly `0` by `1`.
-/

namespace SuperStore

/-- One sales record of the dataset: the columns of the loaded table that
the pipeline reads (app.py lines 13-15 load the table; the remaining
columns are never consulted). -/
structure Row where
  orderDate : Int
  region : String
  state : String
  city : String
  category : String
  subCategory : String
  productName : String
  sales : ℚ
  quantity : Int
  profit : ℚ
deriving DecidableEq

/-- The user's current filter selection (the sidebar widgets,
app.py lines 25, 33, 39, 45, 55-56). -/
structure FilterSpec where
  regions : List String
  states : List String
  category : String
  subCategory : String
  startDate : Int
  endDate : Int
deriving DecidableEq

/-- Region filter, app.py lines 28-29: applied only when the selection
list differs from the literal `["All"]`; otherwise rows whose `Region`
is a member of the selection are kept. -/
def regionFilter (sel : List String) (df : List Row) : List Row :=
  if sel = ["All"] then df else df.filter (fun r => decide (r.region ∈ sel))

/-- State filter, app.py lines 34-35: same shape as the region filter,
applied to the region-filtered result. -/
def stateFilter (sel : List String) (df : List Row) : List Row :=
  if sel = ["All"] then df else df.filter (fun r => decide (r.state ∈ sel))

/-- Category filter, app.py lines 40-41: single-value equality filter
with sentinel `"All"`. -/
def categoryFilter (sel : String) (df : List Row) : List Row :=
  if sel = "All" then df else df.filter (fun r => decide (r.category = sel))

/-- Sub-category filter, app.py lines 46-47: single-value equality filter
with sentinel `"All"`. -/
def subCategoryFilter (sel : String) (df : List Row) : List Row :=
  if sel = "All" then df else df.filter (fun r => decide (r.subCategory = sel))

/-- The cascade of the four categorical filters, app.py lines 27-47,
producing `df_filtered`. -/
def applyCategorical (s : FilterSpec) (df : List Row) : List Row :=
  subCategoryFilter s.subCategory
    (categoryFilter s.category
      (stateFilter s.states
        (regionFilter s.regions df)))

/-- Date-range bounds offered to the user, app.py lines 50-53: the
min/max `Order Date` of the categorically filtered subset, falling back
to the full dataset's bounds when that subset is empty.  `none` models
pandas `NaT`, the value `min()`/`max()` of an empty column produces. -/
def minMaxDate (dfOriginal dfFiltered : List Row) : Option Int × Option Int :=
  if dfFiltered.isEmpty then
    ((dfOriginal.map Row.orderDate).min?, (dfOriginal.map Row.orderDate).max?)
  else
    ((dfFiltered.map Row.orderDate).min?, (dfFiltered.map Row.orderDate).max?)

/-- The invalid-date-range check of app.py line 58: a sidebar error is
shown exactly when the chosen start date is strictly after the end
date; the dates are not modified. -/
def invalidDateRange (s : FilterSpec) : Bool :=
  decide (s.endDate < s.startDate)

/-- Inclusive date-interval filter, app.py line 61. -/
def dateFilter (startD endD : Int) (df : List Row) : List Row :=
  df.filter (fun r => decide (startD ≤ r.orderDate) && decide (r.orderDate ≤ endD))

/-- The working subset `df`, app.py line 61: the categorical cascade
followed by the date filter. -/
def workingSubset (s : FilterSpec) (df : List Row) : List Row :=
  dateFilter s.startDate s.endDate (applyCategorical s df)

/-- The four scalar KPIs of app.py lines 64-70. -/
structure KpiSet where
  sales : ℚ
  quantity : Int
  profit : ℚ
  marginRate : ℚ
deriving DecidableEq

/-- Column sum `df["Sales"].sum()`. -/
def sumSales (df : List Row) : ℚ :=
  (df.map Row.sales).sum

/-- Column sum `df["Quantity"].sum()`. -/
def sumQuantity (df : List Row) : Int :=
  (df.map Row.quantity).sum

/-- Column sum `df["Profit"].sum()`. -/
def sumProfit (df : List Row) : ℚ :=
  (df.map Row.profit).sum

/-- KPI calculation, app.py lines 64-70: all four KPIs are `0` on an
empty subset; otherwise the three column sums, and the margin rate is
profit over sales guarded to `0` when total sales is `0`. -/
def compute (df : List Row) : KpiSet :=
  if df.isEmpty then ⟨0, 0, 0, 0⟩
  else
    ⟨sumSales df, sumQuantity df, sumProfit df,
      if sumSales df ≠ 0 then sumProfit df / sumSales df else 0⟩

/-- One group's rollup in an aggregate table: the group key together with
the four per-group KPI values (app.py lines 129-142). -/
structure AggRow (K : Type) where
  key : K
  sales : ℚ
  quantity : Int
  profit : ℚ
  marginRate : ℚ
deriving DecidableEq

/-- The rows of `df` belonging to the group with key `k`. -/
def groupRows {K : Type} [DecidableEq K] (key : Row → K) (df : List Row) (k : K) :
    List Row :=
  df.filter (fun r => decide (key r = k))

/-- One output row of `df.groupby(key).agg(sum)` followed by the
Margin-Rate column, app.py lines 129-130 / 132-133 / 138-139: the three
column sums over the group, and `Profit / Sales.replace(0, 1)` — the
divisor is the group's sales sum unless that sum is exactly `0`, in
which case it is `1`. -/
def aggRowOf {K : Type} [DecidableEq K] (key : Row → K) (df : List Row) (k : K) :
    AggRow K :=
  ⟨k, sumSales (groupRows key df k), sumQuantity (groupRows key df k),
    sumProfit (groupRows key df k),
    sumProfit (groupRows key df k) /
      (if sumSales (groupRows key df k) = 0 then 1 else sumSales (groupRows key df k))⟩

/-- `df.groupby(key).agg({sum,sum,sum}).reset_index()` plus the
Margin-Rate column: one row per distinct key, keys in ascending order
(pandas `groupby` defaults to `sort=True`), modelled by a stable
insertion sort of the deduplicated keys under the key order `le`. -/
def groupBy {K : Type} [DecidableEq K] (le : K → K → Prop) [DecidableRel le]
    (key : Row → K) (df : List Row) : List (AggRow K) :=
  (((df.map key).dedup).insertionSort le).map (aggRowOf key df)

/-- `daily_grouped`, app.py lines 129-130: group by `Order Date`. -/
def dailyGrouped (df : List Row) : List (AggRow Int) :=
  groupBy (· ≤ ·) Row.orderDate df

/-- `city_grouped` before its in-place sort, app.py lines 132-133:
group by `City`. -/
def cityGrouped (df : List Row) : List (AggRow String) :=
  groupBy (· ≤ ·) Row.city df

/-- `product_grouped` before its in-place sort, app.py lines 138-139:
group by `Product Name`. -/
def productGrouped (df : List Row) : List (AggRow String) :=
  groupBy (· ≤ ·) Row.productName df

/-- The four KPI choices stored in `st.session_state.selected_kpi`
(app.py lines 73-74, 120). -/
inductive Kpi where
  | sales
  | quantity
  | profit
  | marginRate
deriving DecidableEq

/-- The aggregate-table column named by a KPI choice (the `by=` column of
the sorts at app.py lines 135 and 141), as a sort key.  Quantity is an
integer column; casting it to `ℚ` preserves its order. -/
def kpiVal {K : Type} : Kpi → AggRow K → ℚ
  | .sales, r => r.sales
  | .quantity, r => (r.quantity : ℚ)
  | .profit, r => r.profit
  | .marginRate, r => r.marginRate

/-- `table.sort_values(by=col, ascending=False)`, app.py lines 135 and
141, called with the default `kind='quicksort'`: pandas guarantees a
permutation of the table sorted descending in the column, but documents
the default kind as unstable, so the relative order of tied rows is
unspecified (see `SortValuesDescGuarantee`).  This definition is one
deterministic refinement of that contract (an insertion sort under the
flipped value order); the theorems below use only its contract-level
facts — permutation, descending sortedness, length — never its
particular tie order. -/
def sortValuesDesc {K : Type} (val : AggRow K → ℚ) (t : List (AggRow K)) :
    List (AggRow K) :=
  t.insertionSort (fun a b => val b ≤ val a)

/-- Modelled from the pandas documentation of `DataFrame.sort_values`:
with the default `kind='quicksort'` the output is guaranteed to be a
permutation of the input sorted (here descending, `ascending=False`) in
the chosen column, and nothing more — only `kind='mergesort'`/`'stable'`
are documented stable, so the relative order of tied rows is not part of
the contract. -/
def SortValuesDescGuarantee {K : Type} (val : AggRow K → ℚ)
    (t out : List (AggRow K)) : Prop :=
  List.Perm out t ∧ List.Sorted (fun a b => val b ≤ val a) out

/-- `table.sort_values(by=col, ascending=False).head(n)`, app.py lines
135-136 and 141-142: the descending sort followed by truncation to the
first `n` rows. -/
def topN {K : Type} (val : AggRow K → ℚ) (t : List (AggRow K)) (n : Nat) :
    List (AggRow K) :=
  (sortValuesDesc val t).take n

/-- The chart datasets the presentation layer receives, app.py lines
129-142: the daily table, the city and product tables in the state they
are left in after their in-place descending sorts, and the two top-10
truncations. -/
structure ChartData where
  daily : List (AggRow Int)
  city : List (AggRow String)
  product : List (AggRow String)
  top10City : List (AggRow String)
  top10Product : List (AggRow String)
deriving DecidableEq

/-- The chart-data computation of app.py lines 129-142 (the non-empty
branch), as a function of the working subset and the selected KPI. -/
def chartData (df : List Row) (kpi : Kpi) : ChartData :=
  ⟨dailyGrouped df,
    sortValuesDesc (kpiVal kpi) (cityGrouped df),
    sortValuesDesc (kpiVal kpi) (productGrouped df),
    (sortValuesDesc (kpiVal kpi) (cityGrouped df)).take 10,
    (sortValuesDesc (kpiVal kpi) (productGrouped df)).take 10⟩

/-- A sample record used to instantiate the theorems below. -/
def sampleRow : Row :=
  ⟨5, "West", "CA", "LA", "Tech", "Phones", "P1", 2, 3, 10⟩

/-- A second sample record with zero sales, exercising the Margin-Rate
zero-guards. -/
def sampleRow0 : Row :=
  ⟨3, "East", "NY", "NYC", "Tech", "Chairs", "P2", 0, 1, -2⟩

/-- A two-record sample dataset. -/
def sampleDf : List Row :=
  [sampleRow, sampleRow0]

/-- A fully unconstrained filter selection. -/
def sampleSpec : FilterSpec :=
  ⟨["All"], ["All"], "All", "All", 0, 10⟩

/-- A filter selection whose start date is strictly after its end date. -/
def sampleBadSpec : FilterSpec :=
  ⟨["All"], ["All"], "All", "All", 10, 0⟩

/-- A city aggregate table of 17 distinct groups whose Sales values are
all equal: one more group than numpy's small-array insertion-sort
cutoff, so the default quicksort of `sort_values` really partitions
(and swaps tied entries) on a table of this size. -/
def tiedTable : List (AggRow String) :=
  [⟨"C01", 100, 1, 10, 0⟩, ⟨"C02", 100, 1, 10, 0⟩, ⟨"C03", 100, 1, 10, 0⟩,
    ⟨"C04", 100, 1, 10, 0⟩, ⟨"C05", 100, 1, 10, 0⟩, ⟨"C06", 100, 1, 10, 0⟩,
    ⟨"C07", 100, 1, 10, 0⟩, ⟨"C08", 100, 1, 10, 0⟩, ⟨"C09", 100, 1, 10, 0⟩,
    ⟨"C10", 100, 1, 10, 0⟩, ⟨"C11", 100, 1, 10, 0⟩, ⟨"C12", 100, 1, 10, 0⟩,
    ⟨"C13", 100, 1, 10, 0⟩, ⟨"C14", 100, 1, 10, 0⟩, ⟨"C15", 100, 1, 10, 0⟩,
    ⟨"C16", 100, 1, 10, 0⟩, ⟨"C17", 100, 1, 10, 0⟩]

section Lemmas

variable {α : Type} {K : Type} {M : Type}

theorem sum_map_filter_split [AddCommMonoid M] (p : α → Bool) (f : α → M) :
    ∀ l : List α,
      ((l.filter p).map f).sum + ((l.filter (fun a => !p a)).map f).sum
        = (l.map f).sum
  | [] => by simp
  | a :: l => by
    by_cases h : p a
    · simp only [List.filter_cons, h, Bool.not_true, if_pos, List.map_cons,
        List.sum_cons, if_neg Bool.false_ne_true]
      rw [add_assoc, sum_map_filter_split p f l]
    · have h' : p a = false := by simpa using h
      simp only [List.filter_cons, h', Bool.not_false, if_pos,
        if_neg Bool.false_ne_true, List.map_cons, List.sum_cons]
      rw [← add_assoc, add_comm (((l.filter p).map f).sum) (f a), add_assoc,
        sum_map_filter_split p f l]

theorem sum_over_groups [DecidableEq K] [AddCommMonoid M]
    (key : α → K) (f : α → M) :
    ∀ (ks : List K) (l : List α), ks.Nodup → (∀ a ∈ l, key a ∈ ks) →
      (ks.map (fun k => ((l.filter (fun a => decide (key a = k))).map f).sum)).sum
        = (l.map f).sum := by
  intro ks
  induction ks with
  | nil =>
    intro l _ hcov
    cases l with
    | nil => simp
    | cons a l => exact absurd (hcov a (by simp)) (List.not_mem_nil _)
  | cons k ks ih =>
    intro l hnd hcov
    have hknot : k ∉ ks := (List.nodup_cons.mp hnd).1
    have hnd' : ks.Nodup := (List.nodup_cons.mp hnd).2
    have hcov' : ∀ a ∈ l.filter (fun a => !decide (key a = k)), key a ∈ ks := by
      intro a ha
      have hmem := List.mem_of_mem_filter ha
      have hne : ¬ key a = k := by
        have := List.of_mem_filter ha
        simpa using this
      rcases List.mem_cons.mp (hcov a hmem) with h | h
      · exact absurd h hne
      · exact h
    have hshift : ∀ k' ∈ ks,
        l.filter (fun a => decide (key a = k'))
          = (l.filter (fun a => !decide (key a = k))).filter
              (fun a => decide (key a = k')) := by
      intro k' hk'
      have hkk : k ≠ k' := fun e => hknot (e ▸ hk')
      rw [List.filter_filter]
      apply List.filter_congr
      intro a _
      by_cases h : key a = k'
      · simp [h, Ne.symm hkk]
      · simp [h]
    calc (((k :: ks).map
            (fun k => ((l.filter (fun a => decide (key a = k))).map f).sum)).sum)
        = ((l.filter (fun a => decide (key a = k))).map f).sum
            + ((ks.map (fun k' =>
                ((l.filter (fun a => decide (key a = k'))).map f).sum)).sum) := by
          simp
      _ = ((l.filter (fun a => decide (key a = k))).map f).sum
            + ((ks.map (fun k' =>
                (((l.filter (fun a => !decide (key a = k))).filter
                    (fun a => decide (key a = k'))).map f).sum)).sum) := by
          congr 1
          apply congrArg
          exact List.map_congr_left (fun k' hk' => by rw [hshift k' hk'])
      _ = ((l.filter (fun a => decide (key a = k))).map f).sum
            + ((l.filter (fun a => !decide (key a = k))).map f).sum := by
          rw [ih (l.filter (fun a => !decide (key a = k))) hnd' hcov']
      _ = (l.map f).sum := sum_map_filter_split _ f l

theorem groupBy_proj_sum [DecidableEq K] [AddCommMonoid M]
    (le : K → K → Prop) [DecidableRel le] (key : Row → K) (df : List Row)
    (proj : AggRow K → M) (f : Row → M)
    (hpf : ∀ k, proj (aggRowOf key df k)
      = ((df.filter (fun a => decide (key a = k))).map f).sum) :
    ((groupBy le key df).map proj).sum = (df.map f).sum := by
  unfold groupBy
  rw [List.map_map]
  have hperm : List.Perm ((df.map key).dedup.insertionSort le) (df.map key).dedup :=
    List.perm_insertionSort _ _
  rw [(hperm.map (proj ∘ aggRowOf key df)).sum_eq]
  have hcov : ∀ a ∈ df, key a ∈ (df.map key).dedup := by
    intro a ha
    exact List.mem_dedup.mpr (List.mem_map_of_mem key ha)
  calc ((df.map key).dedup.map (proj ∘ aggRowOf key df)).sum
      = ((df.map key).dedup.map
          (fun k => ((df.filter (fun a => decide (key a = k))).map f).sum)).sum := by
        exact congrArg List.sum (List.map_congr_left (fun k _ => hpf k))
    _ = (df.map f).sum :=
        sum_over_groups key f _ df (List.nodup_dedup _) hcov

theorem sorted_sortValuesDesc (val : AggRow K → ℚ) (t : List (AggRow K)) :
    List.Sorted (fun a b => val b ≤ val a) (sortValuesDesc val t) := by
  haveI : IsTotal (AggRow K) (fun a b => val b ≤ val a) :=
    ⟨fun a b => le_total (val b) (val a)⟩
  haveI : IsTrans (AggRow K) (fun a b => val b ≤ val a) :=
    ⟨fun _ _ _ h1 h2 => le_trans h2 h1⟩
  exact List.sorted_insertionSort _ t

theorem stateFilter_nil (sel : List String) : stateFilter sel [] = [] := by
  unfold stateFilter
  split <;> rfl

theorem categoryFilter_nil (sel : String) : categoryFilter sel [] = [] := by
  unfold categoryFilter
  split <;> rfl

theorem subCategoryFilter_nil (sel : String) : subCategoryFilter sel [] = [] := by
  unfold subCategoryFilter
  split <;> rfl

theorem regionFilter_empty_sel (df : List Row) : regionFilter [] df = [] := by
  unfold regionFilter
  rw [if_neg (by simp)]
  simp

theorem stateFilter_empty_sel (df : List Row) : stateFilter [] df = [] := by
  unfold stateFilter
  rw [if_neg (by simp)]
  simp

theorem dateFilter_eq_nil_of_invalid {startD endD : Int} (h : endD < startD)
    (df : List Row) : dateFilter startD endD df = [] := by
  unfold dateFilter
  apply List.filter_eq_nil_iff.mpr
  intro r _
  simp only [Bool.and_eq_true, decide_eq_true_eq, not_and]
  intro h1 h2
  exact absurd (le_trans h1 h2) (not_le.mpr h)

theorem marginRate_of_mem_groupBy [DecidableEq K]
    (le : K → K → Prop) [DecidableRel le] (key : Row → K) (df : List Row)
    (row : AggRow K) (h : row ∈ groupBy le key df) :
    row.marginRate = if row.sales = 0 then row.profit else row.profit / row.sales := by
  unfold groupBy at h
  obtain ⟨k, _, rfl⟩ := List.mem_map.mp h
  show sumProfit (groupRows key df k) /
      (if sumSales (groupRows key df k) = 0 then 1 else sumSales (groupRows key df k))
    = _
  by_cases hs : sumSales (groupRows key df k) = 0
  · simp [aggRowOf, hs]
  · simp [aggRowOf, hs]

end Lemmas

/-- Claim C1 (code bug): the program's sort (app.py lines 135, 141) runs
`sort_values(by=kpi, ascending=False)` with the default
`kind='quicksort'`, whose documented contract
(`SortValuesDescGuarantee`) fixes only a descending-sorted permutation
and leaves tie order unspecified.  At the failing input `tiedTable` —
17 groups whose active-KPI values are all equal, beyond numpy's
insertion-sort cutoff — the exact reversal of the table satisfies
everything the code guarantees while placing every pair of tied groups
in the opposite of their original order, so the claimed stability
("ties keep original input order") is not a property of the code; the
spec's demanded stable sort would require `kind='stable'`/`'mergesort'`.
The model `sortValuesDesc` meets the documented contract. -/
theorem quicksort_tie_order_not_guaranteed :
    SortValuesDescGuarantee (kpiVal .sales) tiedTable tiedTable.reverse ∧
    tiedTable.reverse ≠ tiedTable ∧
    SortValuesDescGuarantee (kpiVal .sales) tiedTable
      (sortValuesDesc (kpiVal .sales) tiedTable) :=
  ⟨⟨List.reverse_perm tiedTable, by decide⟩, by decide,
    List.perm_insertionSort _ _, sorted_sortValuesDesc _ _⟩

/-- Claim C3: in every aggregate table (daily, city, product), each
group's Margin Rate is its profit sum divided by its sales sum, except
that a sales sum exactly `0` is replaced by the divisor `1`, making the
Margin Rate equal to the group's profit in that degenerate case; in
particular the value is always defined. -/
theorem groupBy_marginRate_zero_guard (df : List Row) :
    (∀ row ∈ dailyGrouped df,
      row.marginRate = if row.sales = 0 then row.profit else row.profit / row.sales) ∧
    (∀ row ∈ cityGrouped df,
      row.marginRate = if row.sales = 0 then row.profit else row.profit / row.sales) ∧
    (∀ row ∈ productGrouped df,
      row.marginRate = if row.sales = 0 then row.profit else row.profit / row.sales) :=
  ⟨fun row h => marginRate_of_mem_groupBy _ _ df row h,
    fun row h => marginRate_of_mem_groupBy _ _ df row h,
    fun row h => marginRate_of_mem_groupBy _ _ df row h⟩

/-- Witness for C3: the single group of a one-record dataset with zero
sales satisfies the Margin-Rate characterization. -/
theorem groupBy_marginRate_zero_guard_witness :
    (aggRowOf Row.orderDate [sampleRow0] 3).marginRate
      = if (aggRowOf Row.orderDate [sampleRow0] 3).sales = 0
        then (aggRowOf Row.orderDate [sampleRow0] 3).profit
        else (aggRowOf Row.orderDate [sampleRow0] 3).profit
              / (aggRowOf Row.orderDate [sampleRow0] 3).sales :=
  (groupBy_marginRate_zero_guard [sampleRow0]).1 _
    (by simp [dailyGrouped, groupBy, sampleRow0])

/-- Claim C5: `compute` returns the sums of Sales, Quantity and Profit
over all rows, with Margin Rate equal to Profit over Sales when the
sales total is nonzero and exactly `0` when it is zero; on the empty
subset all four values are exactly `0`. -/
theorem compute_kpis_spec (df : List Row) :
    (compute df).sales = sumSales df ∧
    (compute df).quantity = sumQuantity df ∧
    (compute df).profit = sumProfit df ∧
    (sumSales df = 0 → (compute df).marginRate = 0) ∧
    (sumSales df ≠ 0 → (compute df).marginRate = sumProfit df / sumSales df) ∧
    (df = [] → compute df = ⟨0, 0, 0, 0⟩) := by
  by_cases h : df = []
  · subst h
    exact ⟨rfl, rfl, rfl, fun _ => rfl, fun h0 => absurd rfl h0, fun _ => rfl⟩
  · have hne : df.isEmpty = false := by simpa [List.isEmpty_iff] using h
    refine ⟨by simp [compute, hne], by simp [compute, hne], by simp [compute, hne],
      ?_, ?_, fun h' => absurd h' h⟩
    · intro h0
      simp [compute, hne, h0]
    · intro h0
      simp [compute, hne, h0]

/-- Witness for C5: on the empty subset the Margin Rate is `0` and the
whole KPI set is zero. -/
theorem compute_kpis_spec_witness :
    (compute []).marginRate = 0 ∧ compute [] = ⟨0, 0, 0, 0⟩ :=
  ⟨(compute_kpis_spec []).2.2.2.1 rfl, (compute_kpis_spec []).2.2.2.2.2 rfl⟩

/-- Claim C6: `topN` with `n = 10` returns exactly `min 10 g` rows where
`g` is the number of rows of the aggregate table it is applied to, and
an aggregate table produced by `groupBy` has exactly one row per
distinct key of the subset. -/
theorem topN_length_min_ten {K : Type} [DecidableEq K]
    (le : K → K → Prop) [DecidableRel le] (key : Row → K) (df : List Row)
    (kpi : Kpi) (t : List (AggRow K)) :
    (topN (kpiVal kpi) t 10).length = min 10 t.length ∧
    (groupBy le key df).length = ((df.map key).dedup).length := by
  constructor
  · unfold topN sortValuesDesc
    rw [List.length_take, List.length_insertionSort]
  · unfold groupBy
    rw [List.length_map, List.length_insertionSort]

/-- Claim C8: for a fixed working subset, the selected KPI does not
change the contents of the three aggregate tables: the daily table is
identical, and the city and product tables (which the program sorts in
place by the selected KPI) hold exactly the same rows up to order. -/
theorem chartData_tables_independent_of_kpi (df : List Row) (k1 k2 : Kpi) :
    (chartData df k1).daily = (chartData df k2).daily ∧
    List.Perm (chartData df k1).city (chartData df k2).city ∧
    List.Perm (chartData df k1).product (chartData df k2).product :=
  ⟨rfl,
    (List.perm_insertionSort _ _).trans (List.perm_insertionSort _ _).symm,
    (List.perm_insertionSort _ _).trans (List.perm_insertionSort _ _).symm⟩

/-- Claim C2: on every non-empty working subset, the per-dimension sums
of Sales, Quantity and Profit over the rows of each aggregate table
(daily, city, product) equal the corresponding KPI totals `compute`
produces on the same subset. -/
theorem aggregator_sums_match_kpi_totals (df : List Row) (h : df ≠ []) :
    ((dailyGrouped df).map AggRow.sales).sum = (compute df).sales ∧
    ((dailyGrouped df).map AggRow.quantity).sum = (compute df).quantity ∧
    ((dailyGrouped df).map AggRow.profit).sum = (compute df).profit ∧
    ((cityGrouped df).map AggRow.sales).sum = (compute df).sales ∧
    ((cityGrouped df).map AggRow.quantity).sum = (compute df).quantity ∧
    ((cityGrouped df).map AggRow.profit).sum = (compute df).profit ∧
    ((productGrouped df).map AggRow.sales).sum = (compute df).sales ∧
    ((productGrouped df).map AggRow.quantity).sum = (compute df).quantity ∧
    ((productGrouped df).map AggRow.profit).sum = (compute df).profit := by
  have hne : df.isEmpty = false := by simpa [List.isEmpty_iff] using h
  have hs : (compute df).sales = sumSales df := by simp [compute, hne]
  have hq : (compute df).quantity = sumQuantity df := by simp [compute, hne]
  have hp : (compute df).profit = sumProfit df := by simp [compute, hne]
  refine ⟨?_, ?_, ?_, ?_, ?_, ?_, ?_, ?_, ?_⟩ <;>
    first
      | (rw [hs]; exact groupBy_proj_sum _ _ df AggRow.sales Row.sales (fun k => rfl))
      | (rw [hq]; exact groupBy_proj_sum _ _ df AggRow.quantity Row.quantity (fun k => rfl))
      | (rw [hp]; exact groupBy_proj_sum _ _ df AggRow.profit Row.profit (fun k => rfl))

/-- Witness for C2: the sums agree on the two-record sample dataset. -/
theorem aggregator_sums_match_kpi_totals_witness :
    ((dailyGrouped sampleDf).map AggRow.sales).sum = (compute sampleDf).sales :=
  (aggregator_sums_match_kpi_totals sampleDf (by decide)).1

/-- Claim C4: when the chosen start date is strictly after the end date
on a non-empty dataset, the program flags the invalid range (app.py
line 58) without swapping the dates, and the date filter of line 61
yields the empty working subset, whose KPI set is `{0, 0, 0, 0}`. -/
theorem invalid_date_range_flags_and_empties (df : List Row) (s : FilterSpec)
    (hdf : df ≠ []) (hs : s.endDate < s.startDate) :
    invalidDateRange s = true ∧
    workingSubset s df = [] ∧
    compute (workingSubset s df) = ⟨0, 0, 0, 0⟩ := by
  have hempty : workingSubset s df = [] :=
    dateFilter_eq_nil_of_invalid hs (applyCategorical s df)
  refine ⟨by simpa [invalidDateRange] using hs, hempty, ?_⟩
  rw [hempty]
  rfl

/-- Witness for C4: a reversed date interval on the sample dataset. -/
theorem invalid_date_range_flags_and_empties_witness :
    invalidDateRange sampleBadSpec = true ∧
    workingSubset sampleBadSpec sampleDf = [] ∧
    compute (workingSubset sampleBadSpec sampleDf) = ⟨0, 0, 0, 0⟩ :=
  invalid_date_range_flags_and_empties sampleDf sampleBadSpec (by decide) (by decide)

/-- Counterexample to C7 as stated: on an empty dataset the fallback
itself is empty, and both date bounds come back `none` (pandas `NaT`),
so `minMaxDate` does not unconditionally avoid null bounds. -/
theorem minMaxDate_nil_counterexample :
    minMaxDate [] (applyCategorical sampleSpec []) = (none, none) := rfl

/-- Claim C7 (amended: provided the full dataset is non-empty): when the
categorical filter leaves nothing, `minMaxDate` falls back to the full
dataset's minimum and maximum order date; otherwise it returns the
filtered subset's bounds; and in either case both bounds are defined. -/
theorem minMaxDate_fallback_total (df : List Row) (s : FilterSpec)
    (h : df ≠ []) :
    (applyCategorical s df = [] →
      minMaxDate df (applyCategorical s df)
        = ((df.map Row.orderDate).min?, (df.map Row.orderDate).max?)) ∧
    (applyCategorical s df ≠ [] →
      minMaxDate df (applyCategorical s df)
        = (((applyCategorical s df).map Row.orderDate).min?,
            ((applyCategorical s df).map Row.orderDate).max?)) ∧
    (minMaxDate df (applyCategorical s df)).1.isSome = true ∧
    (minMaxDate df (applyCategorical s df)).2.isSome = true := by
  refine ⟨fun hF => by rw [hF]; rfl,
    fun hF => by
      have hne : (applyCategorical s df).isEmpty = false := by
        simpa [List.isEmpty_iff] using hF
      simp [minMaxDate, hne],
    ?_, ?_⟩ <;>
  · by_cases hF : applyCategorical s df = []
    · obtain ⟨a, l, rfl⟩ := List.exists_cons_of_ne_nil h
      simp [minMaxDate, hF, List.min?, List.max?]
    · have hne : (applyCategorical s df).isEmpty = false := by
        simpa [List.isEmpty_iff] using hF
      obtain ⟨a, l, he⟩ := List.exists_cons_of_ne_nil hF
      simp [minMaxDate, hne, he, List.min?, List.max?]

/-- Witness for C7 (amended): defined bounds on the sample dataset. -/
theorem minMaxDate_fallback_total_witness :
    (minMaxDate sampleDf (applyCategorical sampleSpec sampleDf)).1.isSome = true :=
  (minMaxDate_fallback_total sampleDf sampleSpec (by decide)).2.2.1

/-- Claim C9: a region (or state) selection is unconstrained only when
it is exactly `["All"]`; any other selection keeps exactly the rows
whose Region (State) is a member of the selected list, and when no row
carries the literal value `"All"` that entry of the list matches
nothing, so selecting `"All"` together with real values does not pass
all rows through. -/
theorem all_sentinel_exact_match (df : List Row) (selR selS : List String)
    (hR : selR ≠ ["All"]) (hS : selS ≠ ["All"])
    (hdf : ∀ r ∈ df, r.region ≠ "All" ∧ r.state ≠ "All") :
    regionFilter selR df = df.filter (fun r => decide (r.region ∈ selR)) ∧
    stateFilter selS df = df.filter (fun r => decide (r.state ∈ selS)) ∧
    regionFilter selR df
      = df.filter (fun r => decide (r.region ≠ "All" ∧ r.region ∈ selR)) ∧
    stateFilter selS df
      = df.filter (fun r => decide (r.state ≠ "All" ∧ r.state ∈ selS)) := by
  have h1 : regionFilter selR df = df.filter (fun r => decide (r.region ∈ selR)) := by
    unfold regionFilter
    rw [if_neg hR]
  have h2 : stateFilter selS df = df.filter (fun r => decide (r.state ∈ selS)) := by
    unfold stateFilter
    rw [if_neg hS]
  refine ⟨h1, h2, ?_, ?_⟩
  · rw [h1]
    apply List.filter_congr
    intro r hr
    simp [(hdf r hr).1]
  · rw [h2]
    apply List.filter_congr
    intro r hr
    simp [(hdf r hr).2]

/-- Witness for C9: a selection containing `"All"` next to a real region
behaves as plain membership filtering on the sample dataset. -/
theorem all_sentinel_exact_match_witness :
    regionFilter ["All", "West"] sampleDf
      = sampleDf.filter (fun r => decide (r.region ∈ ["All", "West"])) :=
  (all_sentinel_exact_match sampleDf ["All", "West"] ["All", "CA"]
    (by decide) (by decide) (by decide)).1

/-- Claim C10: an empty region selection (or empty state selection) is
not the unconstrained sentinel: membership in the empty list never
holds, so every row is filtered out, the working subset is empty, and
the KPI set collapses to all zeros. -/
theorem empty_selection_empty_subset (df : List Row) (s : FilterSpec) :
    (s.regions = [] →
      workingSubset s df = [] ∧ compute (workingSubset s df) = ⟨0, 0, 0, 0⟩) ∧
    (s.states = [] →
      workingSubset s df = [] ∧ compute (workingSubset s df) = ⟨0, 0, 0, 0⟩) := by
  constructor
  · intro h
    have hempty : workingSubset s df = [] := by
      unfold workingSubset applyCategorical
      rw [h, regionFilter_empty_sel, stateFilter_nil, categoryFilter_nil,
        subCategoryFilter_nil]
      rfl
    exact ⟨hempty, by rw [hempty]; rfl⟩
  · intro h
    have hempty : workingSubset s df = [] := by
      unfold workingSubset applyCategorical
      rw [h, stateFilter_empty_sel, categoryFilter_nil, subCategoryFilter_nil]
      rfl
    exact ⟨hempty, by rw [hempty]; rfl⟩

/-- Witness for C10: selecting no regions on the sample dataset. -/
theorem empty_selection_empty_subset_witness :
    workingSubset ⟨[], ["All"], "All", "All", 0, 10⟩ sampleDf = [] ∧
    compute (workingSubset ⟨[], ["All"], "All", "All", 0, 10⟩ sampleDf)
      = ⟨0, 0, 0, 0⟩ :=
  (empty_selection_empty_subset sampleDf ⟨[], ["All"], "All", "All", 0, 10⟩).1 rfl

end SuperStore
